import Mathlib

/-!
Shallow embedding of the TechNova air-quality inference service
(`src/TechNova/app.py`) and proofs about its specification.

The embedded core covers: the schema resolver `build_feature_values`,
the risk scorer `run_prediction` with its 0.3 trigger threshold, the
explainer `explain_and_generate_advice` with its fallback, the advisory
lookup over `ADVICE_TEMPLATES`, the alert composition inside
`ingest_from_device`, and the control flow of the `ingest_from_device`
entry point (store write, email alert).

External collaborators (the sklearn model, the shap library, Firestore,
SMTP) are modelled as oracles supplying their observable outcomes:
`Model` supplies binary predictions, per-label probability-extraction
results and the shap attribution matrix (or its failure), `StoreOutcome`
and `SmtpOutcome` supply success/failure of the store write and the
SMTP dialogue. Python values that may fail float coercion are modelled
by `PyVal`; Python floats are modelled by `Rat`.
-/

namespace TechNova

/-- A JSON-ish value as seen by `float(value)` in Python:
`pynone` is Python `None` (coercion raises), `num q` is any value that
`float` coerces to `q` (numbers, bools, numeric strings), `bad` is any
value on which `float` raises. -/
inductive PyVal where
  | pynone : PyVal
  | num : Rat → PyVal
  | bad : PyVal
deriving DecidableEq

/-- A raw record: the JSON payload, a finite map from string keys to values. -/
abbrev Payload := List (String × PyVal)

/-- Lower-casing of a string, character by character (Python `str.lower`). -/
def strLower (s : String) : String :=
  String.mk (s.data.map Char.toLower)

/-- Character-list version of `List.isPrefixOf`. -/
def chListPrefixOf : List Char → List Char → Bool
  | [], _ => true
  | _ :: _, [] => false
  | a :: as, b :: bs => a == b && chListPrefixOf as bs

/-- Does the second character list contain the first as a contiguous run? -/
def chListContains (pat : List Char) : List Char → Bool
  | [] => chListPrefixOf pat []
  | b :: bs => chListPrefixOf pat (b :: bs) || chListContains pat bs

/-- The Python substring test, `pat in s`. -/
def strContains (s pat : String) : Bool :=
  chListContains pat.data s.data

/-- The alias group added for one (lower-cased) schema feature name
(`app.py` lines 186-199): the first matching substring test in the fixed
mutually-exclusive order temp / humid / co2 / co (non-co2) / pm / no2 /
aqi chooses the group; no match adds nothing. -/
def aliasKeys (colLower : String) : List String :=
  if strContains colLower "temp" then ["temperature", "temp", "Temperature"]
  else if strContains colLower "humid" then ["humidity", "hum", "Humidity"]
  else if strContains colLower "co2" then ["co2_ppm", "co2", "CO2"]
  else if strContains colLower "co" && !strContains colLower "co2" then
    ["co_ppm", "co", "CO_ppm", "CO"]
  else if strContains colLower "pm" then ["pm25", "pm_25", "PM2_5"]
  else if strContains colLower "no2" then ["no2_ppm", "no2", "NO2"]
  else if strContains colLower "aqi" then ["aqi", "AQI"]
  else []

/-- The prioritized candidate-key list for one schema feature name
(`app.py` lines 180-199): the canonical name, its lower-casing, then the
alias group. -/
def candidateKeys (col : String) : List String :=
  [col, strLower col] ++ aliasKeys (strLower col)

/-- The candidate scan of `app.py` lines 201-205: the value of the first
candidate key present in the payload, `none` when every candidate is absent. -/
def firstHit (payload : Payload) : List String → Option PyVal
  | [] => none
  | k :: ks =>
    match payload.lookup k with
    | some v => some v
    | none => firstHit payload ks

/-- Resolution of one schema feature (`app.py` lines 201-214): scan the
candidate keys; a found `None` (or no hit at all) falls back to
`payload.get(col, 0.0)`; a failed `float` coercion yields `0.0`. -/
def resolveOne (payload : Payload) (col : String) : Rat :=
  match firstHit payload (candidateKeys col) with
  | some (PyVal.num q) => q
  | some PyVal.bad => 0
  | some PyVal.pynone =>
    match payload.lookup col with
    | some (PyVal.num q) => q
    | _ => 0
  | none =>
    match payload.lookup col with
    | some (PyVal.num q) => q
    | _ => 0

/-- Embedding of `build_feature_values` (`app.py` lines 171-217): one float per schema
column, in schema order. -/
def build_feature_values (payload : Payload) (cols : List String) : List (String × Rat) :=
  cols.map (fun col => (col, resolveOne payload col))

/-- A fully enriched prediction entry (`app.py` lines 155-163). -/
structure Prediction where
  label : String
  predicted : Int
  probability : Option Rat
  reason_features : List String
  advice : List String
deriving DecidableEq

/-- One advisory template: static title and advice list. -/
structure AdvisoryTemplate where
  title : String
  advice : List String
deriving DecidableEq

/-- The static advisory table `ADVICE_TEMPLATES` (`app.py` lines 71-108). -/
def ADVICE_TEMPLATES : List (String × AdvisoryTemplate) :=
  [("asthma",
    ⟨"Asthma exacerbation risk",
     ["Avoid outdoor strenuous exercise.",
      "Keep windows closed; increase indoor filtration if possible.",
      "Use prescribed inhaler as advised; consult physician if symptoms worsen."]⟩),
   ("copd",
    ⟨"COPD exacerbation risk",
     ["Avoid outdoor exposure; use face mask outdoors.",
      "Ensure medication adherence; seek medical advice for breathing difficulty."]⟩),
   ("resp_inf",
    ⟨"Respiratory infection risk",
     ["Reduce exposure to polluted air; maintain hydration and hygiene.",
      "If you have symptoms, consult a doctor."]⟩),
   ("cardio",
    ⟨"Cardiovascular risk",
     ["Avoid heavy exertion outdoors; those with heart disease should be cautious.",
      "Consult your cardiologist if you have chest pain or unusual breathlessness."]⟩),
   ("allergy",
    ⟨"Allergic reaction risk",
     ["Consider antihistamines if you have allergies; keep indoor air clean.",
      "Avoid outdoor activities during high pollutant episodes."]⟩)]

/-- The advice lookup chain of `app.py` line 154: an unknown label gives an
empty dict and a missing advice key gives an empty list. -/
def adviseAdvice (label : String) : List String :=
  match ADVICE_TEMPLATES.lookup label with
  | some t => t.advice
  | none => []

/-- The title half of the advisory lookup: absent for unknown labels. -/
def adviseTitle (label : String) : Option String :=
  (ADVICE_TEMPLATES.lookup label).map AdvisoryTemplate.title

/-- Embedding of the mean absolute attribution per column, `app.py` line 121: column-wise
mean of absolute values of the (rectangular) attribution matrix. -/
def absMeanCols (rows : List (List Rat)) : List Rat :=
  (List.range (rows.headD []).length).map
    (fun j => (rows.map (fun r => |r.getD j 0|)).sum / (rows.length : Rat))

/-- Argsort of a score list: the indices `0..n-1` sorted so that the
scores they point at are ascending. -/
def argsortAsc (s : List Rat) : List Nat :=
  List.insertionSort (fun i j => s.getD i 0 ≤ s.getD j 0) (List.range s.length)

/-- The last-two-reversed argsort selection of `app.py` line 121: the (up to) two
top-scoring indices, best first. -/
def top2Idx (s : List Rat) : List Nat :=
  ((argsortAsc s).drop ((argsortAsc s).length - 2)).reverse

/-- Embedding of `explain_and_generate_advice` (`app.py` lines 113-126). The shap call
on the first per-label estimator is an external oracle: `none` is an
exception anywhere in the attempt (including an unusable matrix shape,
which in Python raises at `FEATURE_COLS[i]` inside the same `try`);
`some rows` is the returned attribution matrix. -/
def explain_and_generate_advice (cols : List String) (shapOutcome : Option (List (List Rat))) :
    List String :=
  match shapOutcome with
  | none => cols.take 2
  | some rows =>
    let idx := top2Idx (absMeanCols rows)
    if idx.all (fun i => i < cols.length) then idx.map (fun i => cols.getD i "")
    else cols.take 2

/-- The trained multi-label model, as the observable outcomes of the three
calls the core makes on it for a given feature vector:
`predict` is `model.predict(x)[0]`; `predictProba` is `none` when
`model.predict_proba(x)` is not a list/tuple and otherwise one entry per
output, each entry being the result of `float(proba[i][0][1])` (`none`
when that extraction raises); `shap` is the explainer oracle. -/
structure Model where
  predict : List Rat → List Int
  predictProba : List Rat → Option (List (Option Rat))
  shap : List Rat → Option (List (List Rat))

/-- Probability extraction for label position `i` (`app.py` lines 144-149):
absent unless `proba` is a list with an `i`-th entry whose
`float(proba[i][0][1])` succeeded. -/
def extractProba (proba : Option (List (Option Rat))) (i : Nat) : Option Rat :=
  match proba with
  | none => none
  | some ps => ps.getD i none

/-- The fixed trigger threshold 0.3 (`app.py` line 152). -/
def TRIGGER_THRESHOLD : Rat := Rat.divInt 3 10

/-- The trigger test of `app.py` line 152:
`preds[i] == 1 or (p is not None and p > 0.3)`. -/
def trigger (pred : Int) (p : Option Rat) : Bool :=
  pred == 1 ||
    (match p with
     | some q => decide (TRIGGER_THRESHOLD < q)
     | none => false)

/-- The record appended for a triggered label (`app.py` lines 155-163). -/
def predEntry (m : Model) (x : List Rat) (cols labels : List String) (i : Nat) : Prediction :=
  { label := labels.getD i ""
    predicted := (m.predict x).getD i 0
    probability := extractProba (m.predictProba x) i
    reason_features := explain_and_generate_advice cols (m.shap x)
    advice := adviseAdvice (labels.getD i "") }

/-- The value returned by `run_prediction`: `{"status": "ok", "predictions": result}`. -/
structure PredOutput where
  status : String
  predictions : List Prediction
deriving DecidableEq

/-- Embedding of `run_prediction` (`app.py` lines 132-165): one enriched entry per
label position that passes the trigger test, in label order. -/
def run_prediction (m : Model) (x : List Rat) (cols labels : List String) : PredOutput :=
  ⟨"ok",
   (List.range labels.length).filterMap (fun i =>
     if trigger ((m.predict x).getD i 0) (extractProba (m.predictProba x) i)
     then some (predEntry m x cols labels i)
     else none)⟩

/-- Python two-decimal fixed-point formatting of a nonnegative rational,
rounding at the third decimal (`app.py` line 323). -/
def format2 (q : Rat) : String :=
  let n : Int := Rat.floor (q * 100 + Rat.divInt 1 2)
  let whole := n / 100
  let frac := (n % 100).natAbs
  toString whole ++ "." ++ (if frac < 10 then "0" else "") ++ toString frac

/-- One body line per active prediction (`app.py` lines 321-324):
`- <label> (probability: <2-decimal or N/A>)`. -/
def predLine (p : Prediction) : String :=
  "- " ++ p.label ++ " (probability: " ++
    (match p.probability with
     | some q => format2 q
     | none => "N/A") ++ ")"

/-- One trailing feature line `k: v` (`app.py` line 329). -/
def featLine (kv : String × Rat) : String :=
  kv.1 ++ ": " ++ toString kv.2

/-- The fixed alert subject (`app.py` line 331). -/
def ALERT_SUBJECT : String := "Air Quality Health Risk Alert"

/-- The alert body (`app.py` lines 325-330). -/
def bodyText (preds : List Prediction) (fv : List (String × Rat)) : String :=
  "The air-quality ML model detected potential health risks:\n\n" ++
  String.intercalate "\n" (preds.map predLine) ++
  "\n\nFeatures:\n" ++
  String.intercalate "\n" (fv.map featLine)

/-- The alert-composition step guarded by `if predictions:`
(`app.py` lines 318-331): no payload at all for an empty prediction list. -/
def composeAlert (preds : List Prediction) (fv : List (String × Rat)) :
    Option (String × String) :=
  if preds.isEmpty then none else some (ALERT_SUBJECT, bodyText preds fv)

/-- Outcome of the SMTP dialogue inside `send_alert_email`. -/
inductive SmtpOutcome where
  | ok : SmtpOutcome
  | raiseErr : String → SmtpOutcome
deriving DecidableEq

/-- The `ALERT_*` environment configuration; `none` models an unset or
empty (falsy) variable. -/
structure EmailConfig where
  sender : Option String
  password : Option String
  recipient : Option String

/-- What `send_alert_email` did; it never raises to its caller. -/
inductive EmailResult where
  | skippedMissingConfig : EmailResult
  | sent : EmailResult
  | failedLogged : String → EmailResult
deriving DecidableEq

/-- Embedding of `send_alert_email` (`app.py` lines 44-65): a no-op without full
configuration; an SMTP exception is caught and logged, never re-raised. -/
def send_alert_email (cfg : EmailConfig) (_subject _body : String) (smtp : SmtpOutcome) :
    EmailResult :=
  match cfg.sender, cfg.password, cfg.recipient with
  | some _, some _, some _ =>
    (match smtp with
     | SmtpOutcome.ok => EmailResult.sent
     | SmtpOutcome.raiseErr e => EmailResult.failedLogged e)
  | _, _, _ => EmailResult.skippedMissingConfig

/-- Outcome of the Firestore `doc_ref.set` write in `ingest_from_device`. -/
inductive StoreOutcome where
  | ok : String → StoreOutcome
  | fail : String → StoreOutcome
deriving DecidableEq

/-- The success JSON of `/api/v1/ingest_from_device` (`app.py` lines 333-340). -/
structure OkResponse where
  document_id : String
  predictions : List Prediction
  features : List (String × Rat)
deriving DecidableEq

/-- A response envelope with its HTTP status code. -/
inductive Envelope where
  | ok : Nat → OkResponse → Envelope
  | error : Nat → String → Envelope
deriving DecidableEq

/-- The observable effects of one `/api/v1/ingest_from_device` request:
the HTTP response, the alert payload handed to `send_alert_email`
(`none` when the alert step was skipped or never reached), and the email
outcome (`none` when no dispatch was attempted). -/
structure IngestTrace where
  response : Envelope
  alert : Option (String × String)
  email : Option EmailResult
deriving DecidableEq

/-- Embedding of `ingest_from_device` (`app.py` lines 282-345). The whole body runs in
one `try`: a failing store write raises before the alert step and is
answered by the generic 500 error envelope of lines 342-345. -/
def ingest_from_device (m : Model) (cols labels : List String) (payload : Payload)
    (store : StoreOutcome) (cfg : EmailConfig) (smtp : SmtpOutcome) : IngestTrace :=
  let fv := build_feature_values payload cols
  let x := fv.map Prod.snd
  let preds := (run_prediction m x cols labels).predictions
  match store with
  | StoreOutcome.fail msg => ⟨Envelope.error 500 msg, none, none⟩
  | StoreOutcome.ok id =>
    let alert := composeAlert preds fv
    let email := alert.map (fun al => send_alert_email cfg al.1 al.2 smtp)
    ⟨Envelope.ok 200 ⟨id, preds, fv⟩, alert, email⟩

/-! ### Helper lemmas -/

/-- Membership in the output of `run_prediction`, characterised by label
position and the trigger test. -/
theorem mem_run_prediction_iff (m : Model) (x : List Rat) (cols labels : List String)
    (p : Prediction) :
    p ∈ (run_prediction m x cols labels).predictions ↔
      ∃ i, i < labels.length ∧
        trigger ((m.predict x).getD i 0) (extractProba (m.predictProba x) i) = true ∧
        p = predEntry m x cols labels i := by
  simp only [run_prediction, List.mem_filterMap, List.mem_range]
  constructor
  · rintro ⟨i, hi, hif⟩
    by_cases hc :
        trigger ((m.predict x).getD i 0) (extractProba (m.predictProba x) i) = true
    · rw [if_pos hc] at hif
      exact ⟨i, hi, hc, (Option.some_inj.mp hif).symm⟩
    · rw [if_neg hc] at hif
      exact absurd hif (by simp)
  · rintro ⟨i, hi, hc, rfl⟩
    exact ⟨i, hi, by rw [if_pos hc]⟩

/-- The threshold constant is three tenths. -/
theorem TRIGGER_THRESHOLD_eq : TRIGGER_THRESHOLD = (3 : Rat) / 10 := by
  rw [TRIGGER_THRESHOLD, Rat.divInt_eq_div]
  norm_num

/-- The trigger test, as a proposition. -/
theorem trigger_eq_true_iff (pred : Int) (p : Option Rat) :
    trigger pred p = true ↔ pred = 1 ∨ ∃ q, p = some q ∧ (3 : Rat) / 10 < q := by
  cases p with
  | none => simp [trigger]
  | some q => simp [trigger, TRIGGER_THRESHOLD_eq]

/-- Unfolding of the candidate scan at a cons cell. -/
theorem firstHit_cons (payload : Payload) (k : String) (ks : List String) :
    firstHit payload (k :: ks) =
      match payload.lookup k with
      | some v => some v
      | none => firstHit payload ks := rfl

/-- When every candidate key is absent, the candidate scan finds nothing. -/
theorem firstHit_eq_none (payload : Payload) (ks : List String)
    (h : ∀ k ∈ ks, payload.lookup k = none) : firstHit payload ks = none := by
  induction ks with
  | nil => rfl
  | cons k ks ih =>
    have hk := h k (List.mem_cons_self k ks)
    rw [firstHit_cons, hk]
    exact ih (fun k' hk' => h k' (List.mem_cons_of_mem _ hk'))

/-- The explainer output never has more than two entries. -/
theorem explain_length_le_two (cols : List String) (o : Option (List (List Rat))) :
    (explain_and_generate_advice cols o).length ≤ 2 := by
  cases o with
  | none =>
    simp [explain_and_generate_advice]
  | some rows =>
    simp only [explain_and_generate_advice]
    by_cases hall : (top2Idx (absMeanCols rows)).all (fun i => i < cols.length)
    · rw [if_pos hall, List.length_map]
      have h1 : (top2Idx (absMeanCols rows)).length ≤ 2 := by
        simp only [top2Idx, List.length_reverse, List.length_drop]
        omega
      exact h1
    · rw [if_neg hall]
      simp

/-- Every name the explainer outputs is a schema feature name. -/
theorem explain_mem_cols (cols : List String) (o : Option (List (List Rat)))
    (f : String) (hf : f ∈ explain_and_generate_advice cols o) : f ∈ cols := by
  cases o with
  | none =>
    simp only [explain_and_generate_advice] at hf
    exact List.mem_of_mem_take hf
  | some rows =>
    simp only [explain_and_generate_advice] at hf
    by_cases hall : (top2Idx (absMeanCols rows)).all (fun i => i < cols.length)
    · rw [if_pos hall] at hf
      obtain ⟨i, hiMem, rfl⟩ := List.mem_map.mp hf
      have hlt : i < cols.length := by
        have := List.all_eq_true.mp hall i hiMem
        simpa using this
      rw [List.getD_eq_getElem cols "" hlt]
      exact List.getElem_mem hlt
    · rw [if_neg hall] at hf
      exact List.mem_of_mem_take hf

/-- The selection `top2Idx` is sorted by descending score. -/
theorem top2Idx_sorted_desc (s : List Rat) :
    List.Sorted (fun i j => s.getD j 0 ≤ s.getD i 0) (top2Idx s) := by
  haveI hTot : IsTotal Nat (fun i j => s.getD i 0 ≤ s.getD j 0) :=
    ⟨fun a b => le_total _ _⟩
  haveI hTr : IsTrans Nat (fun i j => s.getD i 0 ≤ s.getD j 0) :=
    ⟨fun a b c hab hbc => le_trans hab hbc⟩
  have hsorted : List.Sorted (fun i j => s.getD i 0 ≤ s.getD j 0) (argsortAsc s) :=
    List.sorted_insertionSort _ _
  have hdrop :
      List.Sorted (fun i j => s.getD i 0 ≤ s.getD j 0)
        ((argsortAsc s).drop ((argsortAsc s).length - 2)) :=
    List.Pairwise.sublist (List.drop_sublist _ _) hsorted
  exact List.pairwise_reverse.mpr (by simpa [flip] using hdrop)

/-- Every index not selected by `top2Idx` scores no higher than every
selected index. -/
theorem top2Idx_dominates (s : List Rat) :
    ∀ i ∈ top2Idx s, ∀ j, j < s.length → j ∉ top2Idx s → s.getD j 0 ≤ s.getD i 0 := by
  intro i hi j hj hjn
  haveI hTot : IsTotal Nat (fun i j => s.getD i 0 ≤ s.getD j 0) :=
    ⟨fun a b => le_total _ _⟩
  haveI hTr : IsTrans Nat (fun i j => s.getD i 0 ≤ s.getD j 0) :=
    ⟨fun a b c hab hbc => le_trans hab hbc⟩
  have hsorted : List.Sorted (fun i j => s.getD i 0 ≤ s.getD j 0) (argsortAsc s) :=
    List.sorted_insertionSort _ _
  have hiDrop : i ∈ (argsortAsc s).drop ((argsortAsc s).length - 2) :=
    List.mem_reverse.mp hi
  have hjL : j ∈ argsortAsc s := by
    rw [argsortAsc, List.mem_insertionSort, List.mem_range]
    exact hj
  have hjnd : j ∉ (argsortAsc s).drop ((argsortAsc s).length - 2) := fun hc =>
    hjn (List.mem_reverse.mpr hc)
  have hjTake : j ∈ (argsortAsc s).take ((argsortAsc s).length - 2) := by
    rcases List.mem_append.mp
        (by rw [List.take_append_drop]; exact hjL :
          j ∈ (argsortAsc s).take ((argsortAsc s).length - 2) ++
              (argsortAsc s).drop ((argsortAsc s).length - 2)) with h | h
    · exact h
    · exact absurd h hjnd
  exact hsorted.rel_of_mem_take_of_mem_drop hjTake hiDrop

/-! ### Claims -/

/-- C1: `run_prediction` emits a Prediction entry for the label at
position `i` iff the binary prediction of the model there equals 1, or a
probability was extracted for it and that probability is strictly above
0.3; with no extracted probability only the predicted flag governs, and
labels with prediction 0 and probability absent or at most 0.3 never
appear in the output list. -/
theorem run_prediction_trigger_law
    (m : Model) (x : List Rat) (cols labels : List String)
    (hN : labels.Nodup) (i : Nat) (hi : i < labels.length)
    (_hlen : labels.length ≤ (m.predict x).length) :
    (∃ p ∈ (run_prediction m x cols labels).predictions, p.label = labels[i]) ↔
      ((m.predict x).getD i 0 = 1 ∨
        ∃ q, extractProba (m.predictProba x) i = some q ∧ (3 : Rat) / 10 < q) := by
  constructor
  · rintro ⟨p, hp, hlab⟩
    obtain ⟨j, hj, htrig, rfl⟩ := (mem_run_prediction_iff m x cols labels p).mp hp
    simp only [predEntry] at hlab
    rw [List.getD_eq_getElem labels "" hj] at hlab
    have hji : j = i := hN.getElem_inj_iff.mp hlab
    subst hji
    exact (trigger_eq_true_iff _ _).mp htrig
  · intro h
    refine ⟨predEntry m x cols labels i, ?_, ?_⟩
    · exact (mem_run_prediction_iff m x cols labels _).mpr
        ⟨i, hi, (trigger_eq_true_iff _ _).mpr h, rfl⟩
    · simp only [predEntry]
      exact List.getD_eq_getElem labels "" hi

/-- C1 witness. -/
theorem run_prediction_trigger_law_witness :
    ∃ p ∈ (run_prediction ⟨fun _ => [1, 0], fun _ => none, fun _ => none⟩
        [1, 2] ["temperature_c", "co2_ppm"] ["asthma", "copd"]).predictions,
      p.label = ["asthma", "copd"][0] :=
  (run_prediction_trigger_law ⟨fun _ => [1, 0], fun _ => none, fun _ => none⟩
      [1, 2] ["temperature_c", "co2_ppm"] ["asthma", "copd"]
      (by decide) 0 (by decide) (by decide)).mpr (Or.inl (by decide))

/-- C2: `build_feature_values` yields exactly one (float) entry per
schema name, in schema order; a feature whose candidate keys are all
absent resolves to 0, and a feature whose first found candidate value is
not float-coercible resolves to 0. Totality of the Lean function is the
never-raises guarantee. -/
theorem build_feature_values_safe (payload : Payload) (cols : List String) :
    ((build_feature_values payload cols).map Prod.fst = cols) ∧
    (∀ col, (∀ k, k ∈ candidateKeys col → payload.lookup k = none) →
      resolveOne payload col = 0) ∧
    (∀ col v, firstHit payload (candidateKeys col) = some v →
      (∀ q, v ≠ PyVal.num q) → resolveOne payload col = 0) := by
  refine ⟨?_, ?_, ?_⟩
  · simp [build_feature_values, List.map_map, Function.comp_def]
  · intro col hall
    have hfh : firstHit payload (candidateKeys col) = none :=
      firstHit_eq_none payload (candidateKeys col) hall
    have hcol : payload.lookup col = none :=
      hall col (List.mem_cons_self col _)
    simp [resolveOne, hfh, hcol]
  · intro col v hfh hv
    cases v with
    | num q => exact absurd rfl (hv q)
    | bad => simp [resolveOne, hfh]
    | pynone =>
      cases hcol : payload.lookup col with
      | none => simp [resolveOne, hfh, hcol]
      | some w =>
        have h1 : firstHit payload (candidateKeys col) = some w := by
          have hck : candidateKeys col = col :: (strLower col :: aliasKeys (strLower col)) := rfl
          rw [hck, firstHit_cons, hcol]
        rw [hfh] at h1
        have hw : w = PyVal.pynone := (Option.some_inj.mp h1).symm
        subst hw
        simp [resolveOne, hfh, hcol]

/-- C2 witness. -/
theorem build_feature_values_safe_witness :
    ((build_feature_values [("temperature", PyVal.pynone)] ["ghost", "temperature_c"]).map
        Prod.fst = ["ghost", "temperature_c"]) ∧
    resolveOne [("temperature", PyVal.pynone)] "ghost" = 0 ∧
    resolveOne [("temperature", PyVal.pynone)] "temperature_c" = 0 :=
  ⟨(build_feature_values_safe [("temperature", PyVal.pynone)] ["ghost", "temperature_c"]).1,
   (build_feature_values_safe [("temperature", PyVal.pynone)] ["ghost", "temperature_c"]).2.1
     "ghost" (by decide),
   (build_feature_values_safe [("temperature", PyVal.pynone)] ["ghost", "temperature_c"]).2.2
     "temperature_c" PyVal.pynone (by decide) (fun q h => PyVal.noConfusion h)⟩

/-- C3 counterexample: with one label predicted 1, `run_prediction`
computes a nonempty prediction list, yet when the store write fails the
device-ingestion entry point answers with the generic error envelope and
the computed predictions are not returned. -/
theorem ingest_store_fail_counterexample :
    ((run_prediction ⟨fun _ => [1], fun _ => none, fun _ => none⟩
        ((build_feature_values [] ["temperature_c"]).map Prod.snd)
        ["temperature_c"] ["asthma"]).predictions ≠ []) ∧
    (ingest_from_device ⟨fun _ => [1], fun _ => none, fun _ => none⟩
        ["temperature_c"] ["asthma"] [] (StoreOutcome.fail "firestore down")
        ⟨none, none, none⟩ SmtpOutcome.ok).response =
      Envelope.error 500 "firestore down" := by
  exact ⟨by decide, by decide⟩

/-- C3 (amended): the whole handler body shares one `try`, so a failing
store write aborts the request with the 500 error envelope and drops the
computed predictions (the alert step is never reached); only when the
store write succeeds does the response carry the predictions, and then
it does so for every email configuration and SMTP outcome, because
`send_alert_email` catches its own errors. -/
theorem ingest_store_failure_aborts (m : Model) (cols labels : List String)
    (payload : Payload) (msg id : String) (cfg : EmailConfig) (smtp : SmtpOutcome) :
    ((ingest_from_device m cols labels payload (StoreOutcome.fail msg) cfg smtp).response =
      Envelope.error 500 msg) ∧
    ((ingest_from_device m cols labels payload (StoreOutcome.fail msg) cfg smtp).alert =
      none) ∧
    ((ingest_from_device m cols labels payload (StoreOutcome.ok id) cfg smtp).response =
      Envelope.ok 200
        ⟨id,
         (run_prediction m ((build_feature_values payload cols).map Prod.snd)
            cols labels).predictions,
         build_feature_values payload cols⟩) :=
  ⟨rfl, rfl, rfl⟩

/-- C4: when the attribution computation fails, the explainer returns the
first two schema entries in schema order and never propagates the error
(the Lean function is total); when it succeeds and the selected indices
are usable, it returns the top-2 feature names ranked by descending
magnitude of mean attribution: the selection is sorted by descending
score and dominates every unselected index. -/
theorem explain_fallback_and_ranking (cols : List String) (rows : List (List Rat)) :
    (explain_and_generate_advice cols none = cols.take 2) ∧
    ((∀ i ∈ top2Idx (absMeanCols rows), i < cols.length) →
      explain_and_generate_advice cols (some rows) =
        (top2Idx (absMeanCols rows)).map (fun i => cols.getD i "")) ∧
    List.Sorted
      (fun i j => (absMeanCols rows).getD j 0 ≤ (absMeanCols rows).getD i 0)
      (top2Idx (absMeanCols rows)) ∧
    (∀ i ∈ top2Idx (absMeanCols rows), ∀ j, j < (absMeanCols rows).length →
      j ∉ top2Idx (absMeanCols rows) →
      (absMeanCols rows).getD j 0 ≤ (absMeanCols rows).getD i 0) := by
  refine ⟨rfl, ?_, top2Idx_sorted_desc _, top2Idx_dominates _⟩
  intro hin
  have hall : (top2Idx (absMeanCols rows)).all (fun i => i < cols.length) = true := by
    rw [List.all_eq_true]
    intro i hi
    exact decide_eq_true (hin i hi)
  simp only [explain_and_generate_advice, hall, if_true]

/-- C4 witness. -/
theorem explain_fallback_and_ranking_witness :
    (explain_and_generate_advice ["temperature_c", "co2_ppm", "pm2_5_ugm3"] none =
      ["temperature_c", "co2_ppm"]) ∧
    explain_and_generate_advice ["temperature_c", "co2_ppm", "pm2_5_ugm3"]
        (some [[1, 5, 2]]) = ["co2_ppm", "pm2_5_ugm3"] := by
  have hs : absMeanCols [[(1 : Rat), 5, 2]] = [1, 5, 2] := by
    norm_num [absMeanCols, List.range_succ]
  have h := explain_fallback_and_ranking ["temperature_c", "co2_ppm", "pm2_5_ugm3"] [[1, 5, 2]]
  have h2 := h.2.1 (by rw [hs]; decide)
  rw [hs] at h2
  refine ⟨by rw [h.1]; decide, ?_⟩
  rw [h2]
  decide

/-- C5: the scenario record resolves against the three-name schema to
the vector [35, 1200, 80]; in general the candidate keys are the
canonical name, then its lower-casing, then the mutually-exclusive alias
group, and the first candidate key present in the record wins. -/
theorem resolve_scenario_and_priority :
    (build_feature_values
        [("temperature", PyVal.num 35), ("co2_ppm", PyVal.num 1200), ("pm25", PyVal.num 80)]
        ["temperature_c", "co2_ppm", "pm2_5_ugm3"] =
      [("temperature_c", 35), ("co2_ppm", 1200), ("pm2_5_ugm3", 80)]) ∧
    (∀ col, candidateKeys col = col :: strLower col :: aliasKeys (strLower col)) ∧
    (∀ (payload : Payload) (ks₁ ks₂ : List String) (k : String) (v : PyVal),
      (∀ k₀ ∈ ks₁, payload.lookup k₀ = none) → payload.lookup k = some v →
      firstHit payload (ks₁ ++ k :: ks₂) = some v) := by
  refine ⟨by decide, fun col => rfl, ?_⟩
  intro payload ks₁ ks₂ k v habsent hk
  induction ks₁ with
  | nil =>
    rw [List.nil_append, firstHit_cons, hk]
  | cons a as ih =>
    have ha := habsent a (List.mem_cons_self a as)
    rw [List.cons_append, firstHit_cons, ha]
    exact ih (fun k₀ hk₀ => habsent k₀ (List.mem_cons_of_mem _ hk₀))

/-- C5 witness. -/
theorem resolve_scenario_and_priority_witness :
    firstHit [("pm25", PyVal.num 80)] (["pm2_5_ugm3"] ++ "pm25" :: ["pm_25"]) =
      some (PyVal.num 80) :=
  resolve_scenario_and_priority.2.2 [("pm25", PyVal.num 80)] ["pm2_5_ugm3"] ["pm_25"]
    "pm25" (PyVal.num 80) (by decide) (by decide)

/-- C6: the advisory lookup is total for every label string: a label
present in the template table yields exactly the title of that entry and its
advice list, and an unknown label yields no title and an empty advice
list, never an error. -/
theorem advise_total_lookup (label : String) :
    (ADVICE_TEMPLATES.lookup label = none →
      adviseTitle label = none ∧ adviseAdvice label = []) ∧
    (∀ t, ADVICE_TEMPLATES.lookup label = some t →
      adviseTitle label = some t.title ∧ adviseAdvice label = t.advice) := by
  constructor
  · intro h
    simp [adviseTitle, adviseAdvice, h]
  · intro t h
    simp [adviseTitle, adviseAdvice, h]

/-- C6 witness. -/
theorem advise_total_lookup_witness :
    (adviseTitle "unknown_label" = none ∧ adviseAdvice "unknown_label" = []) ∧
    (adviseTitle "asthma" = some "Asthma exacerbation risk" ∧
      adviseAdvice "asthma" =
        ["Avoid outdoor strenuous exercise.",
         "Keep windows closed; increase indoor filtration if possible.",
         "Use prescribed inhaler as advised; consult physician if symptoms worsen."]) :=
  ⟨(advise_total_lookup "unknown_label").1 (by decide),
   (advise_total_lookup "asthma").2
     ⟨"Asthma exacerbation risk",
      ["Avoid outdoor strenuous exercise.",
       "Keep windows closed; increase indoor filtration if possible.",
       "Use prescribed inhaler as advised; consult physician if symptoms worsen."]⟩
     (by decide)⟩

/-- C7: when the active-prediction list is empty, the alert step of the
device-ingestion entry point composes no payload and attempts no
dispatch; a payload is composed and dispatch attempted exactly when at
least one active prediction exists. -/
theorem alert_suppression (m : Model) (cols labels : List String) (payload : Payload)
    (id : String) (cfg : EmailConfig) (smtp : SmtpOutcome) :
    ((run_prediction m ((build_feature_values payload cols).map Prod.snd) cols
        labels).predictions = [] →
      (ingest_from_device m cols labels payload (StoreOutcome.ok id) cfg smtp).alert = none ∧
      (ingest_from_device m cols labels payload (StoreOutcome.ok id) cfg smtp).email = none) ∧
    ((run_prediction m ((build_feature_values payload cols).map Prod.snd) cols
        labels).predictions ≠ [] →
      (ingest_from_device m cols labels payload (StoreOutcome.ok id) cfg smtp).alert =
        some (ALERT_SUBJECT,
          bodyText
            (run_prediction m ((build_feature_values payload cols).map Prod.snd) cols
              labels).predictions
            (build_feature_values payload cols)) ∧
      ((ingest_from_device m cols labels payload (StoreOutcome.ok id) cfg
          smtp).email).isSome = true) := by
  constructor
  · intro h
    constructor <;> simp [ingest_from_device, composeAlert, h]
  · intro h
    have hne : ((run_prediction m ((build_feature_values payload cols).map Prod.snd) cols
        labels).predictions).isEmpty = false := by
      simpa [List.isEmpty_iff] using h
    constructor <;> simp [ingest_from_device, composeAlert, hne]

/-- C7 witness. -/
theorem alert_suppression_witness :
    (ingest_from_device ⟨fun _ => [0], fun _ => none, fun _ => none⟩ ["temperature_c"]
        ["asthma"] [] (StoreOutcome.ok "doc1") ⟨none, none, none⟩ SmtpOutcome.ok).alert =
      none ∧
    (ingest_from_device ⟨fun _ => [0], fun _ => none, fun _ => none⟩ ["temperature_c"]
        ["asthma"] [] (StoreOutcome.ok "doc1") ⟨none, none, none⟩ SmtpOutcome.ok).email =
      none :=
  (alert_suppression ⟨fun _ => [0], fun _ => none, fun _ => none⟩ ["temperature_c"]
      ["asthma"] [] "doc1" ⟨none, none, none⟩ SmtpOutcome.ok).1 (by decide)

/-- C8: every Prediction emitted by `run_prediction` carries a
reason_features list of length at most 2 whose every name is a schema
feature name, on the attribution path and on the fallback path alike. -/
theorem reason_features_bounded (m : Model) (x : List Rat) (cols labels : List String)
    (p : Prediction) (hp : p ∈ (run_prediction m x cols labels).predictions) :
    p.reason_features.length ≤ 2 ∧ ∀ f ∈ p.reason_features, f ∈ cols := by
  obtain ⟨i, hi, htrig, rfl⟩ := (mem_run_prediction_iff m x cols labels p).mp hp
  exact ⟨explain_length_le_two cols (m.shap x),
    fun f hf => explain_mem_cols cols (m.shap x) f hf⟩

/-- C8 witness. -/
theorem reason_features_bounded_witness :
    ((⟨"asthma", 1, none, ["temperature_c", "co2_ppm"],
        ["Avoid outdoor strenuous exercise.",
         "Keep windows closed; increase indoor filtration if possible.",
         "Use prescribed inhaler as advised; consult physician if symptoms worsen."]⟩ :
      Prediction).reason_features.length ≤ 2) ∧
    ∀ f ∈ (⟨"asthma", 1, none, ["temperature_c", "co2_ppm"],
        ["Avoid outdoor strenuous exercise.",
         "Keep windows closed; increase indoor filtration if possible.",
         "Use prescribed inhaler as advised; consult physician if symptoms worsen."]⟩ :
      Prediction).reason_features, f ∈ ["temperature_c", "co2_ppm"] :=
  reason_features_bounded ⟨fun _ => [1, 0], fun _ => none, fun _ => none⟩ [1, 2]
    ["temperature_c", "co2_ppm"] ["asthma", "copd"] _ (by decide)

/-- C9: in the alert body each active prediction is one line of the form
`- <label> (probability: <value>)`, where a present probability renders
in two-decimal fixed point (0.2567 renders as 0.26) and an absent one
renders as N/A. -/
theorem alert_line_format (p : Prediction) (q : Rat) :
    (p.probability = some q →
      predLine p = "- " ++ p.label ++ " (probability: " ++ format2 q ++ ")") ∧
    (p.probability = none →
      predLine p = "- " ++ p.label ++ " (probability: " ++ "N/A" ++ ")") ∧
    (∀ (preds : List Prediction) (fv : List (String × Rat)), preds ≠ [] →
      composeAlert preds fv =
        some (ALERT_SUBJECT,
          "The air-quality ML model detected potential health risks:\n\n" ++
          String.intercalate "\n" (preds.map predLine) ++
          "\n\nFeatures:\n" ++ String.intercalate "\n" (fv.map featLine))) ∧
    format2 (Rat.divInt 2567 10000) = "0.26" := by
  refine ⟨?_, ?_, ?_, ?_⟩
  · intro h
    simp [predLine, h]
  · intro h
    simp [predLine, h]
  · intro preds fv h
    have hne : preds.isEmpty = false := by simpa [List.isEmpty_iff] using h
    simp [composeAlert, bodyText, hne]
  · have h1 : Rat.divInt 2567 10000 * 100 + Rat.divInt 1 2 = Rat.divInt 2617 100 := by
      rw [Rat.divInt_eq_div, Rat.divInt_eq_div, Rat.divInt_eq_div]
      norm_num
    simp only [format2]
    rw [h1]
    decide

/-- C9 witness. -/
theorem alert_line_format_witness :
    predLine ⟨"asthma", 1, some (Rat.divInt 2567 10000), [], []⟩ =
      "- asthma (probability: 0.26)" ∧
    predLine ⟨"copd", 0, none, [], []⟩ = "- copd (probability: N/A)" := by
  have h := alert_line_format ⟨"asthma", 1, some (Rat.divInt 2567 10000), [], []⟩
    (Rat.divInt 2567 10000)
  have h2 := alert_line_format (⟨"copd", 0, none, [], []⟩ : Prediction) 0
  constructor
  · rw [h.1 rfl, h.2.2.2]
    decide
  · rw [h2.2.1 rfl]
    decide

/-- C10: within one request the explainer input is fixed (attributions of
the first per-label estimator of the model on the same vector), so every
emitted Prediction carries the same reason_features list. -/
theorem reason_features_uniform (m : Model) (x : List Rat) (cols labels : List String)
    (p₁ p₂ : Prediction)
    (h₁ : p₁ ∈ (run_prediction m x cols labels).predictions)
    (h₂ : p₂ ∈ (run_prediction m x cols labels).predictions) :
    p₁.reason_features = explain_and_generate_advice cols (m.shap x) ∧
    p₁.reason_features = p₂.reason_features := by
  obtain ⟨i, hi, htr, rfl⟩ := (mem_run_prediction_iff m x cols labels p₁).mp h₁
  obtain ⟨j, hj, htr2, rfl⟩ := (mem_run_prediction_iff m x cols labels p₂).mp h₂
  exact ⟨rfl, rfl⟩

/-- C10 witness. -/
theorem reason_features_uniform_witness :
    (⟨"asthma", 1, none, ["temperature_c", "co2_ppm"],
        ["Avoid outdoor strenuous exercise.",
         "Keep windows closed; increase indoor filtration if possible.",
         "Use prescribed inhaler as advised; consult physician if symptoms worsen."]⟩ :
      Prediction).reason_features =
      explain_and_generate_advice ["temperature_c", "co2_ppm"]
        ((⟨fun _ => [1, 1], fun _ => none, fun _ => none⟩ : Model).shap [1, 2]) ∧
    (⟨"asthma", 1, none, ["temperature_c", "co2_ppm"],
        ["Avoid outdoor strenuous exercise.",
         "Keep windows closed; increase indoor filtration if possible.",
         "Use prescribed inhaler as advised; consult physician if symptoms worsen."]⟩ :
      Prediction).reason_features =
      (⟨"copd", 1, none, ["temperature_c", "co2_ppm"],
        ["Avoid outdoor exposure; use face mask outdoors.",
         "Ensure medication adherence; seek medical advice for breathing difficulty."]⟩ :
      Prediction).reason_features :=
  reason_features_uniform ⟨fun _ => [1, 1], fun _ => none, fun _ => none⟩ [1, 2]
    ["temperature_c", "co2_ppm"] ["asthma", "copd"] _ _ (by decide) (by decide)

end TechNova
